import Mathlib

/-!
Verification of the cloudflare-abtest worker (`src/index.mjs`).

The development shallowly embeds the worker:

* `counterFetch` / `counterInit` embed the `Counter` durable object
  (`Counter.constructor` and `Counter.fetch`): the in-memory `this.value`,
  the persisted `"value"` storage slot, and the capture of `currentValue`
  before the suspension on `storage.put`.
* `c1Step` / `c1Run` embed the concurrent execution of `increment` requests
  against one `Counter`: between two `await`s the JavaScript event loop runs
  a handler atomically, so `++this.value` together with issuing the
  `storage.put` is one atomic move, and the durable-object storage applies
  the issued writes in order.
* `handleRequest` embeds the worker's router together with the counter
  registry (`env.COUNTER.idFromName` maps each of the four literal keys to
  its own counter), the cookie helpers, and the `Response` cookie headers.
  `Math.random() < 0.5` is embedded as `r < mkRat 1 2` for an explicit
  random draw `r : ℚ` (the float literal `0.5` is exactly `1/2`), and a storage failure of `storage.put` as a boolean flag;
  the worker does not `await` the show-counter increment, while it does
  `await` the action-counter increment.
-/

/-! Section: JavaScript string `includes` -/

/-- Embeds `String.prototype.startsWith` on character lists: `pat` is a
prefix of `s`. -/
def startsWithList : List Char → List Char → Bool
  | _, [] => true
  | [], _ :: _ => false
  | c :: cs, p :: ps => c == p && startsWithList cs ps

/-- Embeds `String.prototype.includes` on character lists: `pat` occurs as a
contiguous substring of `s` (at any position). -/
def containsList (pat : List Char) : List Char → Bool
  | [] => pat.isEmpty
  | c :: cs => startsWithList (c :: cs) pat || containsList pat cs

/-- JavaScript `s.includes(pat)`: substring containment, not cookie
parsing. -/
def jsIncludes (s pat : String) : Bool :=
  containsList pat.data s.data

/-! Section: The `Counter` durable object -/

/-- Response of `Counter.fetch`: the body `new Response(currentValue)` for
the three recognized operations, or the 404 `"Not found " + url.pathname`
response. -/
inductive CResponse where
  | body (n : Int)
  | notFound (path : String)
deriving DecidableEq, Repr

/-- State of one `Counter` durable object: the in-memory `this.value` and
the persisted `"value"` storage slot (`none` when nothing was ever
stored). -/
structure DOState where
  value : Int
  storedValue : Option Int
deriving DecidableEq, Repr

/-- JavaScript `stored || 0` (falsiness: `0`, like `undefined`, is falsy,
so a stored `0` also yields `0`). -/
def jsOrZero (stored : Option Int) : Int :=
  match stored with
  | none => 0
  | some v => if v = 0 then 0 else v

/-- Embeds `Counter.constructor`: `blockConcurrencyWhile` loads the
persisted value (or 0 if absent) before any request is delivered, so every
operation starts from this state. -/
def counterInit (persisted : Option Int) : DOState :=
  ⟨jsOrZero persisted, persisted⟩

/-- Embeds `Counter.fetch`. `currentValue` is captured before the `await`
on `storage.put`; `interference` is the net mutation applied to the shared
`this.value` by concurrent requests while this request is suspended on that
`await` (the `"value"` branch has no suspension point). The returned state
records the in-memory value after the suspension and the value this call's
`storage.put` wrote. -/
def counterFetch (pathname : String) (interference : Int) (s : DOState) :
    CResponse × DOState :=
  if pathname = "/increment" then
    let currentValue := s.value + 1
    (CResponse.body currentValue, ⟨currentValue + interference, some currentValue⟩)
  else if pathname = "/decrement" then
    let currentValue := s.value - 1
    (CResponse.body currentValue, ⟨currentValue + interference, some currentValue⟩)
  else if pathname = "/value" then
    (CResponse.body s.value, s)
  else
    (CResponse.notFound pathname, s)

/-- A serialized sequence of `Counter.fetch` operations (no interleaving,
so each call's interference is 0), returning the final state. -/
def counterRunOps (s : DOState) : List String → DOState
  | [] => s
  | p :: ps => counterRunOps (counterFetch p 0 s).2 ps

/-! Section: Concurrent increments against one `Counter`

A configuration tracks `N` concurrent `increment` requests against one
counter. JavaScript runs each handler atomically between `await`s, so the
whole block `currentValue = ++this.value; this.state.storage.put("value",
this.value)` — increment, capture of the return value, issuing the write —
is a single atomic move; the request then suspends. The durable-object
storage applies issued writes in order (`queue` is the FIFO of issued,
not-yet-applied writes). -/

/-- A configuration of `N` concurrent `increment` calls on one counter:
how many calls have not yet run their read-modify step, the in-memory
`this.value`, the FIFO of issued but not yet applied `storage.put` writes,
the persisted value, and the values captured (and later returned) by the
calls that ran, in the order they ran. -/
structure C1Config where
  notStarted : Nat
  mem : Nat
  queue : List Nat
  stored : Nat
  returned : List Nat
deriving DecidableEq, Repr

/-- One scheduler move: either a pending `increment` call runs its atomic
read-modify step (increment `this.value`, capture the result, issue the
write), or the storage applies the oldest issued write. -/
inductive C1Move where
  | start
  | write
deriving DecidableEq, Repr

/-- One step of the interleaving semantics; a move with no enabled
participant leaves the configuration unchanged. -/
def c1Step (c : C1Config) : C1Move → C1Config
  | C1Move.start =>
      if c.notStarted = 0 then c
      else
        { notStarted := c.notStarted - 1
          mem := c.mem + 1
          queue := c.queue ++ [c.mem + 1]
          stored := c.stored
          returned := c.returned ++ [c.mem + 1] }
  | C1Move.write =>
      match c.queue with
      | [] => c
      | w :: ws => { c with queue := ws, stored := w }

/-- Run a schedule (an arbitrary interleaving of the atomic moves). -/
def c1Run (c : C1Config) : List C1Move → C1Config
  | [] => c
  | m :: ms => c1Run (c1Step c m) ms

/-- Initial configuration: `N` concurrent `increment` calls against a
counter initialized at value `V`, nothing yet run or written. -/
def c1Init (N V : Nat) : C1Config :=
  ⟨N, V, [], V, []⟩

/-- Invariant of the interleaving semantics: the calls that ran so far
account for the in-memory value, the captured return values are the
contiguous block `V+1, …, mem`, and the issued-but-unapplied writes are the
contiguous block `stored+1, …, mem` in issue order. -/
def c1Inv (N V : Nat) (c : C1Config) : Prop :=
  c.mem + c.notStarted = V + N ∧
  V ≤ c.mem ∧
  V ≤ c.stored ∧
  c.stored ≤ c.mem ∧
  c.returned = (List.range (c.mem - V)).map (fun i => V + 1 + i) ∧
  c.queue = (List.range (c.mem - c.stored)).map (fun i => c.stored + 1 + i)

/-! Section: The worker: paths, cookies, registry, `handleRequest` -/

def BASE_PATH : String := "/abtest"
def CONTROL_PATH : String := BASE_PATH ++ "/control"
def VARIANT_PATH : String := BASE_PATH ++ "/variant"
def ACTION_PATH : String := BASE_PATH ++ "/action"
def RESULT_PATH : String := BASE_PATH ++ "/result"

def COUNTER_CONTROL_SHOW : String := "control-show"
def COUNTER_CONTROL_ACTION : String := "control-action"
def COUNTER_VARIANT_SHOW : String := "variant-show"
def COUNTER_VARIANT_ACTION : String := "variant-action"

def COOKIE_NAME : String := "cloudflare_ab_test"

/-- The inbound request as the worker sees it: `url.pathname` and the
`cookie` header (`none` when the header is absent, as
`request.headers.get("cookie")` then returns `null`). -/
structure Request where
  pathname : String
  cookie : Option String
deriving DecidableEq, Repr

/-- A JSON value as produced by `JSON.stringify` for the result body:
only strings and numbers occur. -/
inductive JsonVal where
  | str (s : String)
  | num (n : Int)
deriving DecidableEq, Repr

/-- The worker's outbound response: a proxied fetch of some pathname
(`fetch(request)` or `fetch(url, request)`), the 302 redirect of the action
path, or the JSON body of the result path; `setCookies` lists the appended
`Set-Cookie` header values. -/
inductive HResponse where
  | proxied (pathname : String) (setCookies : List String)
  | redirect (location : String) (status : Nat) (setCookies : List String)
  | json (fields : List (String × JsonVal))
deriving DecidableEq, Repr

/-- Appends a `Set-Cookie` header value to a response
(`newResponse.headers.append("Set-Cookie", ...)` after cloning). -/
def appendSetCookie (resp : HResponse) (c : String) : HResponse :=
  match resp with
  | HResponse.proxied p cs => HResponse.proxied p (cs ++ [c])
  | HResponse.redirect l s cs => HResponse.redirect l s (cs ++ [c])
  | HResponse.json f => HResponse.json f

/-- Embeds `setAbTestCookie`: append
`cloudflare_ab_test=<value>; path=/` (no expiry attribute). -/
def setAbTestCookie (resp : HResponse) (value : String) : HResponse :=
  appendSetCookie resp (COOKIE_NAME ++ "=" ++ value ++ "; path=/")

/-- Embeds `setActionCountedCookie`: append
`cloudflare_ab_test_counted=true; path=/`. -/
def setActionCountedCookie (resp : HResponse) : HResponse :=
  appendSetCookie resp "cloudflare_ab_test_counted=true; path=/"

/-- Embeds `hasControlCookie`: the header exists and *contains the
substring* `cloudflare_ab_test=control` (JavaScript `includes`, no cookie
parsing). -/
def hasControlCookie (req : Request) : Bool :=
  match req.cookie with
  | none => false
  | some c => jsIncludes c (COOKIE_NAME ++ "=control")

/-- Embeds `hasVariantCookie`: the header exists and contains the substring
`cloudflare_ab_test=variant`. -/
def hasVariantCookie (req : Request) : Bool :=
  match req.cookie with
  | none => false
  | some c => jsIncludes c (COOKIE_NAME ++ "=variant")

/-- Embeds `actionNotCountedCookie`: the header exists and does *not*
contain the substring `cloudflare_ab_test_counted=true`. -/
def actionNotCountedCookie (req : Request) : Bool :=
  match req.cookie with
  | none => false
  | some c => !(jsIncludes c "cloudflare_ab_test_counted=true")

/-- The counter registry's state, one in-memory counter value per logical
key (`env.COUNTER.idFromName` maps each of the four literal key strings to
its own durable object, so the four counters are independent). -/
structure Env where
  controlShow : Int
  controlAction : Int
  variantShow : Int
  variantAction : Int
deriving DecidableEq, Repr

/-- The current in-memory value of the counter a key resolves to. -/
def counterValue (key : String) (env : Env) : Int :=
  if key = COUNTER_CONTROL_SHOW then env.controlShow
  else if key = COUNTER_CONTROL_ACTION then env.controlAction
  else if key = COUNTER_VARIANT_SHOW then env.variantShow
  else if key = COUNTER_VARIANT_ACTION then env.variantAction
  else 0

/-- Embeds `incrementCounter`: resolve the key to its counter and perform
the increment (the durable object increments `this.value` before suspending
on the storage write, so the in-memory value is incremented even when the
write later fails). -/
def incrementCounter (key : String) (env : Env) : Env :=
  if key = COUNTER_CONTROL_SHOW then { env with controlShow := env.controlShow + 1 }
  else if key = COUNTER_CONTROL_ACTION then { env with controlAction := env.controlAction + 1 }
  else if key = COUNTER_VARIANT_SHOW then { env with variantShow := env.variantShow + 1 }
  else if key = COUNTER_VARIANT_ACTION then { env with variantAction := env.variantAction + 1 }
  else env

/-- Embeds `getCounterValue`: the counter's `value` operation returns
`new Response(currentValue)`, and `resp.text()` yields the *decimal string*
of the integer. -/
def getCounterValue (key : String) (env : Env) : String :=
  toString (counterValue key env)

/-- The error a failed durable `storage.put` surfaces to an `await`ing
caller. -/
structure StorageFailure where
deriving DecidableEq, Repr

instance {ε α : Type} [DecidableEq ε] [DecidableEq α] : DecidableEq (Except ε α)
  | Except.ok x, Except.ok y =>
      match decEq x y with
      | Decidable.isTrue h => Decidable.isTrue (h ▸ rfl)
      | Decidable.isFalse h => Decidable.isFalse (fun hc => h (Except.ok.inj hc))
  | Except.ok _, Except.error _ => Decidable.isFalse (fun hc => Except.noConfusion hc)
  | Except.error _, Except.ok _ => Decidable.isFalse (fun hc => Except.noConfusion hc)
  | Except.error e, Except.error f =>
      match decEq e f with
      | Decidable.isTrue h => Decidable.isTrue (h ▸ rfl)
      | Decidable.isFalse h => Decidable.isFalse (fun hc => h (Except.error.inj hc))

/-- Embeds `handleRequest`. `r` is the draw of `Math.random()` (a real in
`[0, 1)`, embedded as a rational; the source picks `"variant"` exactly when
`r < 0.5`, and the float literal `0.5` is exactly `mkRat 1 2`). `storageFails` says whether a durable write issued by this
request fails; the show-counter increment on the entry path is *not*
`await`ed, so its failure cannot reject the handler, while the
action-counter increment *is* `await`ed, so its failure rejects the handler
(`Except.error`). In the control branch of the entry path the source
assigns `url.pathname = CONTROL_PATH` but then calls `fetch(request)` with
the original request, so the original pathname is proxied. -/
def handleRequest (req : Request) (r : ℚ) (storageFails : Bool) (env : Env) :
    Except StorageFailure (HResponse × Env) :=
  if req.pathname = BASE_PATH then
    if hasControlCookie req then
      Except.ok (HResponse.proxied req.pathname [], env)
    else if hasVariantCookie req then
      Except.ok (HResponse.proxied VARIANT_PATH [], env)
    else
      let group := if r < mkRat 1 2 then "variant" else "control"
      if group = "variant" then
        let env1 := incrementCounter COUNTER_VARIANT_SHOW env
        Except.ok (setAbTestCookie (HResponse.proxied VARIANT_PATH []) group, env1)
      else
        let env1 := incrementCounter COUNTER_CONTROL_SHOW env
        Except.ok (setAbTestCookie (HResponse.proxied CONTROL_PATH []) group, env1)
  else if req.pathname = ACTION_PATH then
    let response := HResponse.redirect "https://ptrlaszlo.com/posts/cloudflare-ab-testing" 302 []
    if hasControlCookie req && actionNotCountedCookie req then
      if storageFails then Except.error ⟨⟩
      else Except.ok (setActionCountedCookie response, incrementCounter COUNTER_CONTROL_ACTION env)
    else if hasVariantCookie req && actionNotCountedCookie req then
      if storageFails then Except.error ⟨⟩
      else Except.ok (setActionCountedCookie response, incrementCounter COUNTER_VARIANT_ACTION env)
    else
      Except.ok (response, env)
  else if req.pathname = RESULT_PATH then
    Except.ok (HResponse.json
      [("controlShow", JsonVal.str (getCounterValue COUNTER_CONTROL_SHOW env)),
       ("controlAction", JsonVal.str (getCounterValue COUNTER_CONTROL_ACTION env)),
       ("variantShow", JsonVal.str (getCounterValue COUNTER_VARIANT_SHOW env)),
       ("variantAction", JsonVal.str (getCounterValue COUNTER_VARIANT_ACTION env))], env)
  else
    Except.ok (HResponse.proxied req.pathname [], env)

/-- Whether an action request would perform an `await`ed counter increment:
some group cookie is detected and the dedup cookie is absent. -/
def actionIncrementDue (req : Request) : Bool :=
  (hasControlCookie req && actionNotCountedCookie req) ||
    (hasVariantCookie req && actionNotCountedCookie req)

/-- Whether the handler produced a response (rather than rejecting). -/
def isOkResponse (e : Except StorageFailure (HResponse × Env)) : Bool :=
  match e with
  | Except.ok _ => true
  | Except.error _ => false

/-! Section: Theorems about the `Counter` durable object -/

/-- C2: an `increment` call returns the value it computed at its own
read-modify step (`currentValue`, captured before the suspension on the
durable write), and persists exactly that value — independently of any
mutation (`interference`) applied to the shared counter by concurrent calls
during the suspension. -/
theorem increment_returns_captured_value (s : DOState) (interference : Int) :
    counterFetch "/increment" interference s =
      (CResponse.body (s.value + 1),
        ⟨s.value + 1 + interference, some (s.value + 1)⟩) := by
  rfl

/-- C3: a `Counter` rehydrated from a persisted value `K` reports `value()
== K` before any mutation (the `value` operation also leaves the state
unchanged), and a `Counter` with nothing persisted starts at 0. The
`blockConcurrencyWhile` in the constructor delivers every operation only to
the fully loaded state, which the embedding expresses by running
`counterFetch` on `counterInit persisted`. -/
theorem counter_rehydration (K : Int) (interference : Int) :
    (counterFetch "/value" interference (counterInit (some K))).1 = CResponse.body K ∧
    (counterFetch "/value" interference (counterInit (some K))).2 = counterInit (some K) ∧
    (counterFetch "/value" interference (counterInit none)).1 = CResponse.body 0 := by
  have hval : jsOrZero (some K) = K := by
    by_cases h : K = 0
    · simp [jsOrZero, h]
    · simp [jsOrZero, h]
  refine ⟨?_, ?_, ?_⟩
  · simp [counterFetch, counterInit, hval]
  · simp [counterFetch]
  · simp [counterFetch, counterInit, jsOrZero]

/-- C9 counterexample: a single `decrement` on a counter initialized with
nothing persisted drives the value to `-1`, below zero. -/
theorem counter_goes_negative :
    (counterRunOps (counterInit none) ["/decrement"]).value = -1 ∧ (-1 : Int) < 0 := by
  decide

/-- C9 (amended): every operation adjusts the in-memory value by at most
±1, and across any sequence of operations that contains no `decrement`
(the routing logic only ever issues `increment` and `value`) the value
never drops below zero; `decrement` can drive it below zero. -/
theorem counter_adjustment_bound_and_nonneg (ops : List String) (s : DOState)
    (hs : 0 ≤ s.value) (hops : ∀ p ∈ ops, p ≠ "/decrement") :
    0 ≤ (counterRunOps s ops).value ∧
    ∀ (p : String) (t : DOState), |(counterFetch p 0 t).2.value - t.value| ≤ 1 := by
  constructor
  · induction ops generalizing s with
    | nil => simpa [counterRunOps] using hs
    | cons p ps ih =>
      have hp : p ≠ "/decrement" := hops p (List.mem_cons_self p ps)
      have hops' : ∀ q ∈ ps, q ≠ "/decrement" := fun q hq => hops q (List.mem_cons_of_mem p hq)
      show 0 ≤ (counterRunOps (counterFetch p 0 s).2 ps).value
      refine ih _ ?_ hops'
      by_cases h1 : p = "/increment"
      · simp only [counterFetch, h1, if_true]
        omega
      · by_cases h3 : p = "/value"
        · simp only [counterFetch, h1, h3, hp, if_false, if_true]
          · exact hs
        · simp only [counterFetch, h1, h3, hp, if_false]
          exact hs
  · intro p t
    rw [abs_le]
    by_cases h1 : p = "/increment"
    · simp [counterFetch, h1]
    · by_cases h2 : p = "/decrement"
      · simp [counterFetch, h1, h2]
      · by_cases h3 : p = "/value"
        · simp [counterFetch, h1, h2, h3]
        · simp [counterFetch, h1, h2, h3]

/-! Section: Theorems about concurrent increments (C1) -/

/-- The initial configuration satisfies the invariant. -/
theorem c1Inv_init (N V : Nat) : c1Inv N V (c1Init N V) := by
  refine ⟨rfl, le_refl V, le_refl V, le_refl V, ?_, ?_⟩ <;> simp [c1Init]

/-- Every atomic move preserves the invariant. -/
theorem c1Inv_step (N V : Nat) (c : C1Config) (m : C1Move) (h : c1Inv N V c) :
    c1Inv N V (c1Step c m) := by
  obtain ⟨h1, h2, h3, h4, h5, h6⟩ := h
  cases m with
  | start =>
    by_cases h0 : c.notStarted = 0
    · simpa [c1Step, h0] using ⟨h1, h2, h3, h4, h5, h6⟩
    · simp only [c1Inv, c1Step, h0, if_false]
      refine ⟨by omega, by omega, h3, by omega, ?_, ?_⟩
      · have hn : c.mem + 1 - V = (c.mem - V) + 1 := by omega
        rw [hn, List.range_succ, List.map_append, ← h5]
        simp
        omega
      · have hn : c.mem + 1 - c.stored = (c.mem - c.stored) + 1 := by omega
        rw [hn, List.range_succ, List.map_append, ← h6]
        simp
        omega
  | write =>
    cases hq : c.queue with
    | nil => simpa [c1Step, hq] using ⟨h1, h2, h3, h4, h5, h6⟩
    | cons w ws =>
      rw [hq] at h6
      cases hn : c.mem - c.stored with
      | zero =>
        rw [hn] at h6
        simp at h6
      | succ k =>
        rw [hn, List.range_succ_eq_map k, List.map_cons, List.map_map] at h6
        obtain ⟨hw, hws⟩ := List.cons.inj h6
        simp only [c1Inv, c1Step, hq]
        have hw' : w = c.stored + 1 := by omega
        refine ⟨h1, h2, by omega, by omega, h5, ?_⟩
        rw [hws]
        have hk : c.mem - w = k := by omega
        rw [hk]
        refine List.map_congr_left ?_
        intro a _
        simp only [Function.comp_apply]
        omega

/-- Running any schedule preserves the invariant. -/
theorem c1Inv_run (N V : Nat) (c : C1Config) (moves : List C1Move) (h : c1Inv N V c) :
    c1Inv N V (c1Run c moves) := by
  induction moves generalizing c with
  | nil => exact h
  | cons m ms ih => exact ih (c1Step c m) (c1Inv_step N V c m h)

/-- C1: under any interleaving of `N` concurrent `increment` calls on one
counter initialized at `V`, once all calls have run and all issued writes
have been applied, the persisted value is `V + N` and the values returned
by the calls are exactly `V+1, …, V+N`, each returned once (listed here in
read-modify order; wall-clock completion order is unconstrained). -/
theorem concurrent_increments (N V : Nat) (moves : List C1Move)
    (hdone : (c1Run (c1Init N V) moves).notStarted = 0)
    (hflushed : (c1Run (c1Init N V) moves).queue = []) :
    (c1Run (c1Init N V) moves).stored = V + N ∧
    (c1Run (c1Init N V) moves).returned =
      (List.range N).map (fun i => V + 1 + i) := by
  obtain ⟨h1, h2, h3, h4, h5, h6⟩ := c1Inv_run N V (c1Init N V) moves (c1Inv_init N V)
  rw [hflushed] at h6
  have hq0 : (c1Run (c1Init N V) moves).mem - (c1Run (c1Init N V) moves).stored = 0 :=
    List.range_eq_nil.mp (List.map_eq_nil_iff.mp h6.symm)
  have hmem : (c1Run (c1Init N V) moves).mem = V + N := by omega
  have hret : (c1Run (c1Init N V) moves).mem - V = N := by omega
  rw [hret] at h5
  exact ⟨by omega, h5⟩

/-- C1 witness: two concurrent increments on a counter at value 3, with the
second call's read-modify step interleaved before the first call's write is
applied; the persisted value ends at 5 and the returned values are 4 and
5. -/
theorem concurrent_increments_witness :
    (c1Run (c1Init 2 3) [C1Move.start, C1Move.start, C1Move.write, C1Move.write]).stored = 3 + 2 ∧
    (c1Run (c1Init 2 3) [C1Move.start, C1Move.start, C1Move.write, C1Move.write]).returned =
      (List.range 2).map (fun i => 3 + 1 + i) :=
  concurrent_increments 2 3 [C1Move.start, C1Move.start, C1Move.write, C1Move.write]
    (by decide) (by decide)

/-! Section: Theorems about the worker handler -/

/-- A pattern contained in `t` is contained in `s ++ t` (a cookie added to
the header cannot remove a match). -/
theorem containsList_append_right (pat s t : List Char)
    (h : containsList pat t = true) : containsList pat (s ++ t) = true := by
  induction s with
  | nil => simpa using h
  | cons c cs ih =>
    show (startsWithList (c :: (cs ++ t)) pat || containsList pat (cs ++ t)) = true
    rw [ih]
    simp

/-- String form of `containsList_append_right`. -/
theorem jsIncludes_append_right (s t pat : String)
    (h : jsIncludes t pat = true) : jsIncludes (s ++ t) pat = true := by
  unfold jsIncludes at h ⊢
  rw [String.data_append s t]
  exact containsList_append_right pat.data s.data t.data h

/-- C4: an `/abtest` request carrying neither group cookie is assigned by
the random draw — `variant` exactly when `r < 0.5` (so each group with
probability 0.5 for a uniform draw) — the chosen group's show counter is
incremented exactly once and the other counters are untouched, and the
response carries the single `Set-Cookie` value
`cloudflare_ab_test=<group>; path=/`, whose only attribute is the path
scope `/` (no expiry). The increment is not `await`ed, so the response does
not depend on `storageFails`. -/
theorem new_visitor_assignment (req : Request) (r : ℚ) (storageFails : Bool) (env : Env)
    (hp : req.pathname = BASE_PATH)
    (hc : hasControlCookie req = false)
    (hv : hasVariantCookie req = false) :
    handleRequest req r storageFails env =
      (if r < mkRat 1 2 then
        Except.ok (HResponse.proxied VARIANT_PATH ["cloudflare_ab_test=variant; path=/"],
          { env with variantShow := env.variantShow + 1 })
      else
        Except.ok (HResponse.proxied CONTROL_PATH ["cloudflare_ab_test=control; path=/"],
          { env with controlShow := env.controlShow + 1 })) := by
  by_cases hr : r < mkRat 1 2
  · simp [handleRequest, hp, hc, hv, hr, incrementCounter, setAbTestCookie, appendSetCookie,
      COUNTER_VARIANT_SHOW, COUNTER_CONTROL_SHOW, COUNTER_CONTROL_ACTION,
      COUNTER_VARIANT_ACTION, COOKIE_NAME]
  · simp [handleRequest, hp, hc, hv, hr, incrementCounter, setAbTestCookie, appendSetCookie,
      COUNTER_VARIANT_SHOW, COUNTER_CONTROL_SHOW, COUNTER_CONTROL_ACTION,
      COUNTER_VARIANT_ACTION, COOKIE_NAME]

/-- C4 witness: a cookieless `/abtest` request with draw `1/4`. -/
theorem new_visitor_assignment_witness :
    handleRequest ⟨"/abtest", none⟩ (mkRat 1 4) false ⟨0, 0, 0, 0⟩ =
      (if mkRat 1 4 < mkRat 1 2 then
        Except.ok (HResponse.proxied VARIANT_PATH ["cloudflare_ab_test=variant; path=/"],
          { controlShow := 0, controlAction := 0, variantShow := 0 + 1, variantAction := 0 })
      else
        Except.ok (HResponse.proxied CONTROL_PATH ["cloudflare_ab_test=control; path=/"],
          { controlShow := 0 + 1, controlAction := 0, variantShow := 0, variantAction := 0 })) :=
  new_visitor_assignment ⟨"/abtest", none⟩ (mkRat 1 4) false ⟨0, 0, 0, 0⟩ rfl rfl rfl

/-- C5: a visitor assigned to a group (group cookie present, dedup cookie
absent) who hits the action endpoint gets the redirect with the dedup
cookie set, and exactly the action counter of the detected group is
incremented; a second action request whose header additionally carries the
dedup cookie set by the first changes no counter and still gets the
redirect (regardless of the second request's draw or storage failures,
since no increment is attempted). -/
theorem action_counted_once (c : String) (env : Env) (r1 r2 : ℚ) (fails2 : Bool)
    (hg : hasControlCookie ⟨ACTION_PATH, some c⟩ = true ∨
      hasVariantCookie ⟨ACTION_PATH, some c⟩ = true)
    (hn : actionNotCountedCookie ⟨ACTION_PATH, some c⟩ = true) :
    handleRequest ⟨ACTION_PATH, some c⟩ r1 false env =
      Except.ok (HResponse.redirect "https://ptrlaszlo.com/posts/cloudflare-ab-testing" 302
          ["cloudflare_ab_test_counted=true; path=/"],
        if hasControlCookie ⟨ACTION_PATH, some c⟩ then
          { env with controlAction := env.controlAction + 1 }
        else { env with variantAction := env.variantAction + 1 }) ∧
    handleRequest ⟨ACTION_PATH, some (c ++ "; cloudflare_ab_test_counted=true")⟩ r2 fails2
        (if hasControlCookie ⟨ACTION_PATH, some c⟩ then
          { env with controlAction := env.controlAction + 1 }
        else { env with variantAction := env.variantAction + 1 }) =
      Except.ok (HResponse.redirect "https://ptrlaszlo.com/posts/cloudflare-ab-testing" 302 [],
        if hasControlCookie ⟨ACTION_PATH, some c⟩ then
          { env with controlAction := env.controlAction + 1 }
        else { env with variantAction := env.variantAction + 1 }) := by
  have hmarker : jsIncludes (c ++ "; cloudflare_ab_test_counted=true")
      "cloudflare_ab_test_counted=true" = true :=
    jsIncludes_append_right c "; cloudflare_ab_test_counted=true"
      "cloudflare_ab_test_counted=true" (by decide)
  have hcounted : actionNotCountedCookie
      ⟨ACTION_PATH, some (c ++ "; cloudflare_ab_test_counted=true")⟩ = false := by
    simp [actionNotCountedCookie, hmarker]
  have hn' : actionNotCountedCookie ⟨"/abtest/action", some c⟩ = true := hn
  have hcounted' : actionNotCountedCookie
      ⟨"/abtest/action", some (c ++ "; cloudflare_ab_test_counted=true")⟩ = false := hcounted
  constructor
  · by_cases hcc : hasControlCookie ⟨ACTION_PATH, some c⟩ = true
    · have hcc' : hasControlCookie ⟨"/abtest/action", some c⟩ = true := hcc
      simp [handleRequest, ACTION_PATH, BASE_PATH, hcc', hn', setActionCountedCookie,
        appendSetCookie, incrementCounter, COUNTER_CONTROL_SHOW, COUNTER_CONTROL_ACTION,
        COUNTER_VARIANT_SHOW, COUNTER_VARIANT_ACTION]
    · have hvv : hasVariantCookie ⟨ACTION_PATH, some c⟩ = true := by
        rcases hg with h | h
        · exact absurd h hcc
        · exact h
      have hcc' : hasControlCookie ⟨"/abtest/action", some c⟩ = false :=
        Bool.not_eq_true _ ▸ Bool.of_not_eq_true hcc
      have hvv' : hasVariantCookie ⟨"/abtest/action", some c⟩ = true := hvv
      simp [handleRequest, ACTION_PATH, BASE_PATH, hcc', hvv', hn', setActionCountedCookie,
        appendSetCookie, incrementCounter, COUNTER_CONTROL_SHOW, COUNTER_CONTROL_ACTION,
        COUNTER_VARIANT_SHOW, COUNTER_VARIANT_ACTION]
  · simp [handleRequest, ACTION_PATH, BASE_PATH, hcounted']

/-- C5 witness: a variant visitor acts twice; only `variantAction` moves,
and only once. -/
theorem action_counted_once_witness :
    handleRequest ⟨ACTION_PATH, some "cloudflare_ab_test=variant"⟩ 0 false ⟨0, 0, 0, 0⟩ =
      Except.ok (HResponse.redirect "https://ptrlaszlo.com/posts/cloudflare-ab-testing" 302
          ["cloudflare_ab_test_counted=true; path=/"],
        if hasControlCookie ⟨ACTION_PATH, some "cloudflare_ab_test=variant"⟩ then
          { controlShow := 0, controlAction := 0 + 1, variantShow := 0, variantAction := 0 }
        else { controlShow := 0, controlAction := 0, variantShow := 0, variantAction := 0 + 1 }) ∧
    handleRequest
        ⟨ACTION_PATH, some ("cloudflare_ab_test=variant" ++ "; cloudflare_ab_test_counted=true")⟩
        0 true
        (if hasControlCookie ⟨ACTION_PATH, some "cloudflare_ab_test=variant"⟩ then
          { controlShow := 0, controlAction := 0 + 1, variantShow := 0, variantAction := 0 }
        else { controlShow := 0, controlAction := 0, variantShow := 0, variantAction := 0 + 1 }) =
      Except.ok (HResponse.redirect "https://ptrlaszlo.com/posts/cloudflare-ab-testing" 302 [],
        if hasControlCookie ⟨ACTION_PATH, some "cloudflare_ab_test=variant"⟩ then
          { controlShow := 0, controlAction := 0 + 1, variantShow := 0, variantAction := 0 }
        else { controlShow := 0, controlAction := 0, variantShow := 0, variantAction := 0 + 1 }) :=
  action_counted_once "cloudflare_ab_test=variant" ⟨0, 0, 0, 0⟩ 0 0 true
    (Or.inr (by decide)) (by decide)

/-- C6: at the failing input — an `/abtest` request carrying
`cloudflare_ab_test=control` — no counter changes and no cookie is set, but
the proxied page is the original `/abtest` pathname, not the control page:
the source assigns `url.pathname = CONTROL_PATH` and then fetches the
unmodified original `request` (the variant branch, by contrast, fetches the
rewritten `url`). -/
theorem control_cookie_entry_proxies_original_path :
    handleRequest ⟨"/abtest", some "cloudflare_ab_test=control"⟩ 0 false ⟨0, 0, 0, 0⟩ =
      Except.ok (HResponse.proxied "/abtest" [], ⟨0, 0, 0, 0⟩) ∧
    "/abtest" ≠ CONTROL_PATH ∧
    handleRequest ⟨"/abtest", some "cloudflare_ab_test=variant"⟩ 0 false ⟨0, 0, 0, 0⟩ =
      Except.ok (HResponse.proxied VARIANT_PATH [], ⟨0, 0, 0, 0⟩) := by
  refine ⟨by decide, by decide, by decide⟩

/-- C7 counterexample: with counters (5, 2, 7, 3) the result endpoint's
JSON fields hold the *strings* `"5"`, `"2"`, `"7"`, `"3"` — the counter
protocol returns each value as text and `JSON.stringify` keeps it a string
— not the integers the claim states. -/
theorem result_fields_not_integers :
    handleRequest ⟨"/abtest/result", none⟩ 0 false ⟨5, 2, 7, 3⟩ =
      Except.ok (HResponse.json
        [("controlShow", JsonVal.str "5"), ("controlAction", JsonVal.str "2"),
         ("variantShow", JsonVal.str "7"), ("variantAction", JsonVal.str "3")],
        ⟨5, 2, 7, 3⟩) ∧
    JsonVal.str "5" ≠ JsonVal.num 5 := by
  refine ⟨by decide, by decide⟩

/-- C7 (amended): given counter state `controlShow=5, controlAction=2,
variantShow=7, variantAction=3` as the only prior state, the result
endpoint returns a JSON object with exactly the four fields `controlShow`,
`controlAction`, `variantShow`, `variantAction`, whose values are the
decimal string representations `"5"`, `"2"`, `"7"`, `"3"` of the
counters. -/
theorem result_endpoint_emits_strings (cookie : Option String) (r : ℚ) (fails : Bool) :
    handleRequest ⟨RESULT_PATH, cookie⟩ r fails ⟨5, 2, 7, 3⟩ =
      Except.ok (HResponse.json
        [("controlShow", JsonVal.str "5"), ("controlAction", JsonVal.str "2"),
         ("variantShow", JsonVal.str "7"), ("variantAction", JsonVal.str "3")],
        ⟨5, 2, 7, 3⟩) := by
  simp [handleRequest, RESULT_PATH, BASE_PATH, ACTION_PATH, getCounterValue, counterValue,
    COUNTER_CONTROL_SHOW, COUNTER_CONTROL_ACTION, COUNTER_VARIANT_SHOW, COUNTER_VARIANT_ACTION]
  refine ⟨by decide, by decide, by decide, by decide⟩

/-- C8 counterexample: an action request from an assigned, not-yet-counted
visitor `await`s the counter increment, so when the durable write fails the
handler rejects and the user does not receive the redirect. -/
theorem action_increment_failure_fails_request :
    handleRequest ⟨"/abtest/action", some "cloudflare_ab_test=control"⟩ 0 true ⟨0, 0, 0, 0⟩ =
      Except.error ⟨⟩ := by
  decide

/-- C8 (amended): a counting failure never causes the user-facing response
to fail on the entry path (the show-counter increment is not `await`ed),
and on the action path only for requests that perform no increment (dedup
cookie present, or no group assigned); an action request that does perform
an increment fails when the increment fails. -/
theorem counting_failure_isolated (req : Request) (r : ℚ) (fails : Bool) (env : Env)
    (h : req.pathname = BASE_PATH ∨
      (req.pathname = ACTION_PATH ∧ actionIncrementDue req = false)) :
    isOkResponse (handleRequest req r fails env) = true := by
  rcases h with hp | ⟨hp, hdue⟩
  · by_cases hcc : hasControlCookie req = true
    · simp [handleRequest, hp, hcc, isOkResponse]
    · by_cases hvv : hasVariantCookie req = true
      · simp [handleRequest, hp, hcc, hvv, isOkResponse]
      · by_cases hr : r < mkRat 1 2
        · simp [handleRequest, hp, hcc, hvv, hr, isOkResponse]
        · simp [handleRequest, hp, hcc, hvv, hr, isOkResponse]
  · have hdue' := hdue
    unfold actionIncrementDue at hdue'
    rw [Bool.or_eq_false_iff] at hdue'
    obtain ⟨hd1, hd2⟩ := hdue'
    simp [handleRequest, hp, ACTION_PATH, BASE_PATH, hd1, hd2, isOkResponse]

/-- C8 witness: entry-path request served despite a failing increment, and
an already-counted action request served despite a failing increment. -/
theorem counting_failure_isolated_witness :
    isOkResponse (handleRequest ⟨"/abtest", none⟩ 0 true ⟨0, 0, 0, 0⟩) = true ∧
    isOkResponse (handleRequest
      ⟨"/abtest/action", some "cloudflare_ab_test=control; cloudflare_ab_test_counted=true"⟩
      0 true ⟨0, 0, 0, 0⟩) = true :=
  ⟨counting_failure_isolated ⟨"/abtest", none⟩ 0 true ⟨0, 0, 0, 0⟩ (Or.inl rfl),
   counting_failure_isolated
     ⟨"/abtest/action", some "cloudflare_ab_test=control; cloudflare_ab_test_counted=true"⟩
     0 true ⟨0, 0, 0, 0⟩ (Or.inr ⟨rfl, by decide⟩)⟩

/-- C10: group detection is substring containment on the raw cookie
header: a header whose *differently named* cookie contains
`cloudflare_ab_test=control` (`x_cloudflare_ab_test=control`), or whose
value merely extends it (`cloudflare_ab_test=controlX`), is detected as
control, and the handlers treat the visitor as assigned to control — the
`/abtest` handler takes the control branch (no counter change, no cookie
set) and the action handler increments the control action counter. -/
theorem cookie_detection_is_substring_match :
    hasControlCookie ⟨"/abtest", some "x_cloudflare_ab_test=control"⟩ = true ∧
    hasControlCookie ⟨"/abtest", some "cloudflare_ab_test=controlX"⟩ = true ∧
    handleRequest ⟨"/abtest", some "x_cloudflare_ab_test=control"⟩ 0 false ⟨0, 0, 0, 0⟩ =
      Except.ok (HResponse.proxied "/abtest" [], ⟨0, 0, 0, 0⟩) ∧
    handleRequest ⟨"/abtest/action", some "cloudflare_ab_test=controlX"⟩ 0 false ⟨0, 0, 0, 0⟩ =
      Except.ok (HResponse.redirect "https://ptrlaszlo.com/posts/cloudflare-ab-testing" 302
        ["cloudflare_ab_test_counted=true; path=/"], ⟨0, 0 + 1, 0, 0⟩) := by
  refine ⟨by decide, by decide, by decide, by decide⟩

/-- C9 witness: from a fresh counter, an `increment` followed by a `value`
read keeps the value non-negative, and the per-operation bound holds. -/
theorem counter_adjustment_bound_and_nonneg_witness :
    0 ≤ (counterRunOps ⟨0, none⟩ ["/increment", "/value"]).value ∧
    |(counterFetch "/increment" 0 (⟨0, none⟩ : DOState)).2.value -
      (⟨0, none⟩ : DOState).value| ≤ 1 :=
  ⟨(counter_adjustment_bound_and_nonneg ["/increment", "/value"] ⟨0, none⟩
      (by decide) (by decide)).1,
   (counter_adjustment_bound_and_nonneg ["/increment", "/value"] ⟨0, none⟩
      (by decide) (by decide)).2 "/increment" ⟨0, none⟩⟩
